import Mathlib

/-!
Verification development for `SGLXMetaToCoords.py`, a standalone tool that
reconstructs per-channel probe geometry from a SpikeGLX metadata file and
re-encodes it for spike-sorting tools.

The Python source is shallowly embedded: dictionaries become association
lists (newest binding first), NumPy float arrays become `List ℚ`, string
splitting and numeric parsing are modelled by structurally recursive
functions over character lists (Python `str.split` on the single-character
separators actually used by the source), and every Python statement that can
raise (`IndexError`, `KeyError`, `ValueError`, ...) is modelled by `Option`
or `Except` failure.
-/

namespace SGLXCoords

attribute [local semireducible] Rat.add Rat.mul Rat.sub Rat.inv Rat.ofScientific

/-- Split a character list at every occurrence of the separator character,
keeping empty pieces, exactly like Python `str.split(sep)` for a
single-character separator: `"a,b,".split(',') = ["a","b",""]`. -/
def splitOnChar (sep : Char) : List Char → List (List Char)
  | [] => [[]]
  | c :: rest =>
    let r := splitOnChar sep rest
    if c = sep then [] :: r
    else
      match r with
      | [] => [[c]]
      | g :: gs => (c :: g) :: gs

/-- Python `s.split(sep)` for a single-character separator, on `String`. -/
def pySplit (sep : Char) (s : String) : List String :=
  (splitOnChar sep s.data).map String.mk

/-- Python `s[1:len(s)]`: drop the first character (total; empty stays empty). -/
def pyDrop1 (s : String) : String :=
  String.mk (s.data.drop 1)

/-- Accumulating decimal-digit reader: fails on any non-digit character,
returns the accumulated value on the empty list. -/
def digitsAcc (acc : Nat) : List Char → Option Nat
  | [] => some acc
  | c :: cs => if c.isDigit then digitsAcc (acc * 10 + (c.toNat - 48)) cs else none

/-- Parse a nonempty all-digit character list as a natural number. -/
def parseNatChars : List Char → Option Nat
  | [] => none
  | cs => digitsAcc 0 cs

/-- Python `int(s)` on the strings this program feeds it: an optional sign
followed by decimal digits. Fails (`ValueError`) otherwise. -/
def parseIntChars : List Char → Option Int
  | '-' :: cs => (parseNatChars cs).map (fun n => -(n : Int))
  | '+' :: cs => (parseNatChars cs).map (fun n => (n : Int))
  | cs => (parseNatChars cs).map (fun n => (n : Int))

/-- Python `int(s)`, on `String`. -/
def pyInt (s : String) : Option Int :=
  parseIntChars s.data

/-- Unsigned decimal literal with optional fractional part, as an exact
rational: `"27" ↦ 27`, `"6.75" ↦ 27/4`, `"1." ↦ 1`, `".5" ↦ 1/2`. -/
def parseUnsignedQ (cs : List Char) : Option ℚ :=
  match cs.span Char.isDigit with
  | (ip, []) => (parseNatChars ip).map (fun n => (n : ℚ))
  | (ip, '.' :: fp) =>
    if ip = [] ∧ fp = [] then none
    else
      match digitsAcc 0 ip, digitsAcc 0 fp with
      | some i, some f => some ((i : ℚ) + (f : ℚ) / (10 : ℚ) ^ fp.length)
      | _, _ => none
  | _ => none

/-- Python `float(s)` on the decimal strings this program feeds it, modelled
as an exact rational (the metadata values in scope are exactly
representable). -/
def pyFloat (s : String) : Option ℚ :=
  match s.data with
  | '-' :: cs => (parseUnsignedQ cs).map Neg.neg
  | '+' :: cs => parseUnsignedQ cs
  | cs => parseUnsignedQ cs

/-- Effectful map over a list in the `Option` monad, written by plain
structural recursion; models a Python `for` loop whose body may raise. -/
def mapOptM {α β : Type} (l : List α) (f : α → Option β) : Option (List β) :=
  match l with
  | [] => some []
  | a :: rest =>
    match f a, mapOptM rest f with
    | some b, some bs => some (b :: bs)
    | _, _ => none

/-- First-match association-list lookup (used both for the metadata
dictionary, whose newest binding is kept first, and for the literal
catalog tables of the source). -/
def lookupList {α : Type} : List (String × α) → String → Option α
  | [], _ => none
  | (k, v) :: rest, key => if key = k then some v else lookupList rest key

/-- The metadata dictionary: string keys to string values.  Represented as
an association list with the newest binding first, so `lookupList` agrees
with Python `dict` lookup after repeated `update`. -/
abbrev Meta := List (String × String)

/-- Python `key in meta`. -/
def metaHasKey (meta : Meta) (k : String) : Bool :=
  (lookupList meta k).isSome

/-- Runtime failures of the Python source.  `missingFile` is the
spec-taxonomy name for a nonexistent input file; the remaining constructors
model the exceptions Python itself raises (`IndexError`, `KeyError`,
`ValueError`, `TypeError`, `NameError`). -/
inductive PyError
  | missingFile
  | indexError
  | keyError
  | valueError
  | typeError
  | nameError
deriving DecidableEq

/-- One line `key=value` of the metadata file (source lines 49-54):
split on `'='`, take pieces 0 and 1, strip a leading `'~'` from the key.
A line with no `'='`, or with an empty key, raises `IndexError` in the
source and is `none` here. -/
def parseMetaLine (line : String) : Option (String × String) :=
  match splitOnChar '=' line.data with
  | c0 :: v :: _ =>
    match c0 with
    | [] => none
    | ch :: rest =>
      if ch = '~' then some (String.mk rest, String.mk v)
      else some (String.mk c0, String.mk v)
  | _ => none

/-- Fold the metadata lines into the dictionary, later lines shadowing
earlier ones (Python `dict.update` in file order; newest binding first in
our representation). -/
def readMetaLines (acc : Meta) : List String → Option Meta
  | [] => some acc
  | l :: rest =>
    match parseMetaLine l with
    | none => none
    | some kv => readMetaLines (kv :: acc) rest

/-- `readMeta` (source lines 41-58).  The input models the file system:
`none` when the path does not exist, `some lines` for the split file
content.  When the path does not exist the source prints "no meta file"
and returns the (still empty) dictionary — it does not raise. -/
def readMeta (file : Option (List String)) : Except PyError Meta :=
  match file with
  | none => Except.ok []
  | some lines =>
    match readMetaLines [] lines with
    | some m => Except.ok m
    | none => Except.error PyError.indexError

/-- `ChannelCountsIM` (source lines 65-71): read `snsApLfSy`, split on
commas, parse the first three pieces as integers. -/
def ChannelCountsIM (meta : Meta) : Option (Int × Int × Int) := do
  let s ← lookupList meta "snsApLfSy"
  match pySplit ',' s with
  | a :: b :: c :: _ => do
    let ap ← pyInt a
    let lf ← pyInt b
    let sy ← pyInt c
    pure (ap, lf, sy)
  | _ => none

/-- Geometry family `np1_stag_70um` (source line 84); entries are
`[nShank, shankWidth, shankPitch, even_xOff, odd_xOff, horizPitch,
vertPitch, rowsPerShank, elecPerShank]`. -/
def np1_stag_70um : List ℚ := [1, 70, 0, 27, 11, 32, 20, 480, 960]

/-- Geometry family `nhp_lin_70um` (source line 85). -/
def nhp_lin_70um : List ℚ := [1, 70, 0, 27, 27, 32, 20, 480, 960]

/-- Geometry family `nhp_stag_125um_med` (source line 86). -/
def nhp_stag_125um_med : List ℚ := [1, 125, 0, 27, 11, 87, 20, 1368, 2496]

/-- Geometry family `nhp_stag_125um_long` (source line 87). -/
def nhp_stag_125um_long : List ℚ := [1, 125, 0, 27, 11, 87, 20, 2208, 4416]

/-- Geometry family `nhp_lin_125um_med` (source line 88). -/
def nhp_lin_125um_med : List ℚ := [1, 125, 0, 11, 11, 103, 20, 1368, 2496]

/-- Geometry family `nhp_lin_125um_long` (source line 89). -/
def nhp_lin_125um_long : List ℚ := [1, 125, 0, 11, 11, 103, 20, 2208, 4416]

/-- Geometry family `uhd_8col_1bank` (source line 90). -/
def uhd_8col_1bank : List ℚ := [1, 70, 0, 14, 14, 6, 6, 48, 384]

/-- Geometry family `uhd_8col_16bank` (source line 91). -/
def uhd_8col_16bank : List ℚ := [1, 70, 0, 14, 14, 6, 6, 768, 6144]

/-- Geometry family `np2_ss` (source line 92). -/
def np2_ss : List ℚ := [1, 70, 0, 27, 27, 32, 15, 640, 1280]

/-- Geometry family `np2_4s` (source line 93). -/
def np2_4s : List ℚ := [4, 70, 250, 27, 27, 32, 15, 640, 1280]

/-- Geometry family `NP1120` (source line 94). -/
def NP1120 : List ℚ := [1, 70, 0, 6.75, 6.75, 4.5, 4.5, 192, 384]

/-- Geometry family `NP1121` (source line 95). -/
def NP1121 : List ℚ := [1, 70, 0, 6.25, 6.25, 3, 3, 384, 384]

/-- Geometry family `NP1122` (source line 96). -/
def NP1122 : List ℚ := [1, 70, 0, 6.75, 6.75, 4.5, 4.5, 24, 384]

/-- Geometry family `NP1123` (source line 97). -/
def NP1123 : List ℚ := [1, 70, 0, 10.25, 10.25, 3, 3, 32, 384]

/-- Geometry family `NP1300` (source line 98). -/
def NP1300 : List ℚ := [1, 70, 0, 11, 11, 48, 20, 480, 960]

/-- Geometry family `NP1200` (source line 99). -/
def NP1200 : List ℚ := [1, 70, 0, 27, 11, 32, 20, 64, 128]

/-- Geometry family `NXT3000` (source line 100). -/
def NXT3000 : List ℚ := [1, 70, 0, 53, 53, 0, 15, 128, 128]

/-- The probe part-number to geometry catalog `M` of `getGeomParams`
(source lines 102-147), in source order. -/
def geomCatalog : List (String × List ℚ) := [
  ("3A", np1_stag_70um),
  ("PRB_1_4_0480_1", np1_stag_70um),
  ("PRB_1_4_0480_1_C", np1_stag_70um),
  ("NP1010", np1_stag_70um),
  ("NP1011", np1_stag_70um),
  ("NP1012", np1_stag_70um),
  ("NP1013", np1_stag_70um),
  ("NP1015", nhp_lin_70um),
  ("NP1015", nhp_lin_70um),
  ("NP1016", nhp_lin_70um),
  ("NP1017", nhp_lin_70um),
  ("NP1020", nhp_stag_125um_med),
  ("NP1021", nhp_stag_125um_med),
  ("NP1030", nhp_stag_125um_long),
  ("NP1031", nhp_stag_125um_long),
  ("NP1022", nhp_lin_125um_med),
  ("NP1032", nhp_lin_125um_long),
  ("NP1100", uhd_8col_1bank),
  ("NP1110", uhd_8col_16bank),
  ("PRB2_1_4_0480_1", np2_ss),
  ("PRB2_1_2_0640_0", np2_ss),
  ("NP2000", np2_ss),
  ("NP2003", np2_ss),
  ("NP2004", np2_ss),
  ("PRB2_4_2_0640_0", np2_4s),
  ("PRB2_4_4_0480_1", np2_4s),
  ("NP2010", np2_4s),
  ("NP2013", np2_4s),
  ("NP2014", np2_4s),
  ("NP1120", NP1120),
  ("NP1121", NP1121),
  ("NP1122", NP1122),
  ("NP1123", NP1123),
  ("NP1300", NP1300),
  ("NP1200", NP1200),
  ("NXT3000", NXT3000)]

/-- The probe part number: metadata key `imDatPrb_pn`, defaulting to `"3A"`
when absent.  Models the inline lookup repeated at source lines 149-154,
225-229 and 352-356. -/
def probePartNumber (meta : Meta) : String :=
  match lookupList meta "imDatPrb_pn" with
  | some pn => pn
  | none => "3A"

/-- `getGeomParams` (source lines 79-162): look the part number up in the
catalog; when it is absent the source prints "unsupported probe part
number" and returns the empty list. -/
def getGeomParams (meta : Meta) : List ℚ :=
  match lookupList geomCatalog (probePartNumber meta) with
  | some geomList => geomList
  | none => []

/-- `lookupList` finds only pairs present in the association list. -/
theorem lookupList_mem {α : Type} (l : List (String × α)) (k : String) (v : α)
    (h : lookupList l k = some v) : (k, v) ∈ l := by
  induction l with
  | nil => simp [lookupList] at h
  | cons p rest ih =>
    rcases p with ⟨k', v'⟩
    by_cases hk : k = k'
    · subst hk
      simp [lookupList] at h
      subst h
      exact List.mem_cons_self _ _
    · simp [lookupList, hk] at h
      exact List.mem_cons_of_mem _ (ih h)

/-- `getGeomParams` returns either the empty sentinel or a catalog entry. -/
theorem getGeomParams_cases (meta : Meta) :
    getGeomParams meta = [] ∨ (probePartNumber meta, getGeomParams meta) ∈ geomCatalog := by
  unfold getGeomParams
  cases h : lookupList geomCatalog (probePartNumber meta) with
  | none => exact Or.inl rfl
  | some g => exact Or.inr (lookupList_mem _ _ _ h)

/-- Claim C1 (counterexample): at the concrete unsupported part number
`"NP9999"`, `getGeomParams` does not fail with any raised error — it
returns normally, yielding the empty list.  This refutes the claim that the
lookup "fails with `UnsupportedProbeError`": the source prints a message
and returns the sentinel `[]` instead of raising. -/
theorem getGeomParams_unsupported_returns_normally :
    getGeomParams [("imDatPrb_pn", "NP9999")] = [] := by decide

/-- Claim C1 (amended): for every metadata mapping whose part number
(defaulting to `"3A"`) is not a key of the geometry catalog,
`getGeomParams` returns the empty list — never a default or substitute
catalog geometry (every catalog entry is a nonempty constant list). -/
theorem getGeomParams_unsupported_no_substitute (meta : Meta)
    (h : lookupList geomCatalog (probePartNumber meta) = none) :
    getGeomParams meta = [] ∧ ∀ p ∈ geomCatalog, getGeomParams meta ≠ p.2 := by
  have he : getGeomParams meta = [] := by
    unfold getGeomParams
    rw [h]
  refine ⟨he, ?_⟩
  intro p hp
  rw [he]
  have : ∀ q ∈ geomCatalog, q.2 ≠ ([] : List ℚ) := by decide
  exact fun hcontra => this p hp hcontra.symm

/-- Claim C1 (witness): the amended statement applied at the concrete
unsupported part number `"NP9999"`. -/
theorem getGeomParams_unsupported_no_substitute_witness :
    getGeomParams [("imDatPrb_pn", "NP9999")] = [] ∧
      ∀ p ∈ geomCatalog, getGeomParams [("imDatPrb_pn", "NP9999")] ≠ p.2 :=
  getGeomParams_unsupported_no_substitute [("imDatPrb_pn", "NP9999")] (by decide)

/-- Python `==` between a `str` and an `int` never coerces: it is always
`False`.  Faithful model of the comparison `headList[5] == 0` at source
line 299, where `headList[5]` is a string. -/
def pyEqStrInt (_s : String) (_n : Int) : Bool := false

/-- The scan of source lines 285-292: walk the table entries in order,
splitting each on spaces; report `true` at the first entry whose 6th field
is the string `"0"` (AP filter not used) and stop there, like the
source's `break`.  `r` counts the remaining entries, `i` the current
index; an entry with fewer than 6 fields raises `IndexError` (`none`). -/
def anyFullBand (imroTbl : List String) : Nat → Nat → Option Bool
  | _, 0 => some false
  | i, r + 1 => do
    let e ← imroTbl[i + 1]?
    let cl := pySplit ' ' (pyDrop1 e)
    let f ← cl[5]?
    if f = "0" then some true else anyFullBand imroTbl (i + 1) r

/-- `imroMetaItems` (source lines 250-308): split the `imroTbl` value on
`')'`, read the numeric probe-type code from the header (codes above 50000
are remapped to `"0"`), and branch on it to produce the three backfill
strings.  A code outside `{24, 21, 0, 1110}` leaves the result variables
unbound in the source (`NameError` at line 304), modelled as `none`. -/
def imroMetaItems (meta : Meta) : Option (String × String × String) := do
  let s ← lookupList meta "imroTbl"
  let imroTbl := pySplit ')' s
  let nEntry := imroTbl.length - 2
  let headEntry ← imroTbl[0]?
  let headList := pySplit ',' (pyDrop1 headEntry)
  let currType0 ← headList[0]?
  let tv ← pyInt currType0
  let currType := if 50000 < tv then "0" else currType0
  if currType = "24" ∨ currType = "21" then
    pure ("imChan0apGain=80" ++ "\n", "imChan0lfGain=80" ++ "\n",
      "imAnyChanFullBand=true" ++ "\n")
  else if currType = "0" then do
    let e1 ← imroTbl[1]?
    let currList := pySplit ' ' (pyDrop1 e1)
    let apStr ← currList[3]?
    let lfStr ← currList[4]?
    let fullBand ← if currList.length = 6 then anyFullBand imroTbl 0 nEntry else pure false
    pure ("imChan0apGain=" ++ apStr ++ "\n", "imChan0lfGain=" ++ lfStr ++ "\n",
      (if fullBand then "imAnyChanFullBand=true" else "imAnyChanFullBand=false") ++ "\n")
  else if currType = "1110" then do
    let apStr ← headList[3]?
    let lfStr ← headList[4]?
    let f6 ← headList[5]?
    let flag := if pyEqStrInt f6 0 then "imAnyChanFullBand=true" else "imAnyChanFullBand=false"
    pure ("imChan0apGain=" ++ apStr ++ "\n", "imChan0lfGain=" ++ lfStr ++ "\n", flag ++ "\n")
  else none

/-- Claim C3 (counterexample): on a concrete readout table with probe-type
code 24, the decoder returns the full-band string `true` — not `false` as
the claim states (source line 272 writes `imAnyChanFullBand=true`). -/
theorem imroMetaItems_type24_full_band_true :
    imroMetaItems [("imroTbl", "(24,384)(0 1 0 0)")] =
      some ("imChan0apGain=80\n", "imChan0lfGain=80\n", "imAnyChanFullBand=true\n") ∧
    "imAnyChanFullBand=true\n" ≠ "imAnyChanFullBand=false\n" := by decide

/-- Claim C3 (amended): for every metadata mapping whose embedded readout
table has probe-type code `24` or `21` (which is at most 50000, so the
legacy remap does not fire), `imroMetaItems` returns AP gain 80, LF gain
80, and a full-band flag that is true. -/
theorem imroMetaItems_type24_21 (meta : Meta) (s h0 t0 : String) (rest : List String)
    (tv : Int)
    (hs : lookupList meta "imroTbl" = some s)
    (hhead : (pySplit ')' s)[0]? = some h0)
    (hlist : pySplit ',' (pyDrop1 h0) = t0 :: rest)
    (hparse : pyInt t0 = some tv)
    (htv : ¬ 50000 < tv)
    (ht : t0 = "24" ∨ t0 = "21") :
    imroMetaItems meta =
      some ("imChan0apGain=80\n", "imChan0lfGain=80\n", "imAnyChanFullBand=true\n") := by
  unfold imroMetaItems
  rw [hs]
  simp only [Option.bind_eq_bind, Option.some_bind, hhead, hlist]
  simp only [List.getElem?_cons_zero, Option.some_bind, hparse, if_neg htv]
  rw [if_pos ht]
  rfl

/-- Claim C3 (witness): the amended statement applied at the concrete
type-24 readout table. -/
theorem imroMetaItems_type24_21_witness :
    imroMetaItems [("imroTbl", "(24,384)(0 1 0 0)")] =
      some ("imChan0apGain=80\n", "imChan0lfGain=80\n", "imAnyChanFullBand=true\n") :=
  imroMetaItems_type24_21 [("imroTbl", "(24,384)(0 1 0 0)")] "(24,384)(0 1 0 0)"
    "(24,384" "24" ["384"] 24 (by decide) (by decide) (by decide) (by decide)
    (by decide) (Or.inl rfl)

/-- Claim C7 (code bug): for a type-1110 readout table whose header field 6
is the string `"0"` (AP filter disabled), the decoder takes the AP gain
from header field 4 and the LF gain from header field 5, but returns a
full-band flag of `false`: source line 299 compares the string
`headList[5]` with the integer `0`, which is always `False` in Python, so
the flag can never become true for this probe type. -/
theorem imroMetaItems_type1110_flag_stuck_false :
    (pySplit ',' (pyDrop1 "(1110,0,0,500,250,0"))[5]? = some "0" ∧
    imroMetaItems [("imroTbl", "(1110,0,0,500,250,0)(0 1)")] =
      some ("imChan0apGain=500\n", "imChan0lfGain=250\n", "imAnyChanFullBand=false\n") := by
  decide

/-- One parsed entry `(shankInd:col:row:connected)` of the `snsShankMap`
field (source lines 393-399). -/
structure ShankEntry where
  shank : Int
  col : Int
  row : Int
  conn : Int
deriving DecidableEq

/-- Parse one shank-map group: drop the leading character (the `'('`),
split on `':'`, and read the first four pieces as integers; fewer than four
pieces raises `IndexError` in the source. -/
def parseShankEntry (s : String) : Option ShankEntry := do
  match pySplit ':' (pyDrop1 s) with
  | a :: b :: c :: d :: _ => do
    let sh ← pyInt a
    let co ← pyInt b
    let ro ← pyInt c
    let cn ← pyInt d
    pure ⟨sh, co, ro, cn⟩
  | _ => none

/-- The parsing loop of `shankMapToGeom` (source lines 391-399): for
`i` in `range(AP)`, parse piece `i+1` of the split map (piece 0 is the
header); a missing piece raises `IndexError`. -/
def parseShankEntries (pieces : List String) (ap : Nat) : Option (List ShankEntry) :=
  mapOptM (List.range ap) (fun i => do
    let e ← pieces[i + 1]?
    parseShankEntry e)

/-- The uniform result of both geometry resolvers (source lines 344 and
416): header triple plus the four per-channel arrays. -/
structure GeomOut where
  nShank : ℚ
  shankWidth : ℚ
  shankPitch : ℚ
  shankInd : List ℚ
  xCoord : List ℚ
  yCoord : List ℚ
  connected : List ℚ
deriving DecidableEq

/-- `shankMapToGeom` (source lines 377-416): read the AP count, parse one
shank-map entry per saved AP channel, then compute
`x = col * horizPitch + (even_xOff if row is even else odd_xOff)` and
`y = row * vertPitch` from the catalog constants
(`geomList[3..6]`); the header triple is `geomList[0..2]`.  A negative AP
count makes `np.zeros((AP,))` raise in the source (`none` here); an
unsupported probe gives `geomList = []`, so the indexing raises. -/
def shankMapToGeom (meta : Meta) : Option GeomOut := do
  let (ap, _lf, _sy) ← ChannelCountsIM meta
  if ap < 0 then none
  else do
    let sm ← lookupList meta "snsShankMap"
    let entries ← parseShankEntries (pySplit ')' sm) ap.toNat
    let geomList := getGeomParams meta
    let n0 ← geomList[0]?
    let w0 ← geomList[1]?
    let p0 ← geomList[2]?
    let e0 ← geomList[3]?
    let o0 ← geomList[4]?
    let hp ← geomList[5]?
    let vp ← geomList[6]?
    pure { nShank := n0, shankWidth := w0, shankPitch := p0,
           shankInd := entries.map (fun e => (e.shank : ℚ)),
           xCoord := entries.map (fun e =>
             (e.col : ℚ) * hp + (if e.row % 2 = 0 then e0 else o0)),
           yCoord := entries.map (fun e => (e.row : ℚ) * vp),
           connected := entries.map (fun e => (e.conn : ℚ)) }

/-- Characterization of a successful `shankMapToGeom` run in terms of its
parsed intermediates (shared helper for the coordinate claims). -/
theorem shankMapToGeom_eq (meta : Meta) (ap lf sy : Int) (sm : String)
    (entries : List ShankEntry) (n0 w0 p0 e0 o0 hp vp : ℚ)
    (hCC : ChannelCountsIM meta = some (ap, lf, sy))
    (hap : ¬ ap < 0)
    (hsm : lookupList meta "snsShankMap" = some sm)
    (hE : parseShankEntries (pySplit ')' sm) ap.toNat = some entries)
    (h0 : (getGeomParams meta)[0]? = some n0)
    (h1 : (getGeomParams meta)[1]? = some w0)
    (h2 : (getGeomParams meta)[2]? = some p0)
    (h3 : (getGeomParams meta)[3]? = some e0)
    (h4 : (getGeomParams meta)[4]? = some o0)
    (h5 : (getGeomParams meta)[5]? = some hp)
    (h6 : (getGeomParams meta)[6]? = some vp) :
    shankMapToGeom meta =
      some { nShank := n0, shankWidth := w0, shankPitch := p0,
             shankInd := entries.map (fun e => (e.shank : ℚ)),
             xCoord := entries.map (fun e =>
               (e.col : ℚ) * hp + (if e.row % 2 = 0 then e0 else o0)),
             yCoord := entries.map (fun e => (e.row : ℚ) * vp),
             connected := entries.map (fun e => (e.conn : ℚ)) } := by
  unfold shankMapToGeom
  rw [hCC]
  simp only [Option.bind_eq_bind, Option.some_bind, if_neg hap, hsm, hE,
    h0, h1, h2, h3, h4, h5, h6]
  rfl

/-- Claim C2: for every metadata mapping containing a column/row map and a
supported probe model, `shankMapToGeom` assigns saved AP channel `i` the
coordinates `y_i = row_i * verticalPitch` and `x_i = col_i *
horizontalPitch + evenRowXOffset` when `row_i` is even, or `col_i *
horizontalPitch + oddRowXOffset` when `row_i` is odd, the constants coming
from the probe's geometry-catalog entry (`getGeomParams`). -/
theorem shankMapToGeom_row_col_coords (meta : Meta) (ap lf sy : Int) (sm : String)
    (entries : List ShankEntry) (n0 w0 p0 e0 o0 hp vp : ℚ) (out : GeomOut)
    (hCC : ChannelCountsIM meta = some (ap, lf, sy))
    (hap : ¬ ap < 0)
    (hsm : lookupList meta "snsShankMap" = some sm)
    (hE : parseShankEntries (pySplit ')' sm) ap.toNat = some entries)
    (h0 : (getGeomParams meta)[0]? = some n0)
    (h1 : (getGeomParams meta)[1]? = some w0)
    (h2 : (getGeomParams meta)[2]? = some p0)
    (h3 : (getGeomParams meta)[3]? = some e0)
    (h4 : (getGeomParams meta)[4]? = some o0)
    (h5 : (getGeomParams meta)[5]? = some hp)
    (h6 : (getGeomParams meta)[6]? = some vp)
    (hout : shankMapToGeom meta = some out) :
    ∀ i (h : i < entries.length),
      out.yCoord[i]? = some (((entries.get ⟨i, h⟩).row : ℚ) * vp) ∧
      out.xCoord[i]? = some (((entries.get ⟨i, h⟩).col : ℚ) * hp +
        (if (entries.get ⟨i, h⟩).row % 2 = 0 then e0 else o0)) := by
  have heq := shankMapToGeom_eq meta ap lf sy sm entries n0 w0 p0 e0 o0 hp vp
    hCC hap hsm hE h0 h1 h2 h3 h4 h5 h6
  rw [hout] at heq
  have hrec := Option.some.inj heq
  intro i h
  subst hrec
  constructor
  · simp [List.getElem?_map, List.getElem?_eq_getElem h, List.get_eq_getElem]
  · simp [List.getElem?_map, List.getElem?_eq_getElem h, List.get_eq_getElem]

/-- Concrete two-channel metadata fixture for the computed path: default
probe `3A` (`np1_stag_70um`), channels `(0:0:0:1)` and `(0:1:1:0)`. -/
def metaShank : Meta :=
  [("snsShankMap", "(1,2,480,0)(0:0:0:1)(0:1:1:0)"), ("snsApLfSy", "2,0,1")]

/-- The parsed entries of `metaShank`. -/
def entriesShank : List ShankEntry := [⟨0, 0, 0, 1⟩, ⟨0, 1, 1, 0⟩]

/-- The resolved geometry of `metaShank`: `x = col*32 + (27|11)`,
`y = row*20`. -/
def outShank : GeomOut :=
  { nShank := 1, shankWidth := 70, shankPitch := 0,
    shankInd := [0, 0], xCoord := [27, 43], yCoord := [0, 20], connected := [1, 0] }

/-- Claim C2 (witness): the coordinate formula applied at channel 0 of the
concrete fixture. -/
theorem shankMapToGeom_row_col_coords_witness :
    outShank.yCoord[0]? = some (((entriesShank.get ⟨0, by decide⟩).row : ℚ) * 20) ∧
    outShank.xCoord[0]? = some (((entriesShank.get ⟨0, by decide⟩).col : ℚ) * 32 +
      (if (entriesShank.get ⟨0, by decide⟩).row % 2 = 0 then 27 else 11)) :=
  shankMapToGeom_row_col_coords metaShank 2 0 1 "(1,2,480,0)(0:0:0:1)(0:1:1:0)"
    entriesShank 1 70 0 27 11 32 20 outShank (by decide) (by decide) (by decide)
    (by decide) (by decide) (by decide) (by decide) (by decide) (by decide)
    (by decide) (by decide) (by decide) 0 (by decide)

/-- Euclidean-style remainder on ℚ: `a - b * ⌊a / b⌋` (the `mod` of the
row-parity offset law). -/
def qmod (a b : ℚ) : ℚ := a - b * (⌊a / b⌋ : ℚ)

/-- `qmod` of an integer multiple of `b` plus a remainder in `[0, b)` is
that remainder. -/
theorem qmod_int_mul_add (c : ℤ) (r b : ℚ) (hr : 0 ≤ r) (hrb : r < b) :
    qmod ((c : ℚ) * b + r) b = r := by
  have hb : 0 < b := lt_of_le_of_lt hr hrb
  have hbne : b ≠ 0 := ne_of_gt hb
  have hdiv : ((c : ℚ) * b + r) / b = (c : ℚ) + r / b := by
    rw [add_div, mul_div_cancel_right₀ _ hbne]
  have hfr : ⌊r / b⌋ = 0 := by
    rw [Int.floor_eq_zero_iff, Set.mem_Ico]
    exact ⟨div_nonneg hr (le_of_lt hb), by rw [div_lt_one hb]; exact hrb⟩
  have hfloor : ⌊((c : ℚ) * b + r) / b⌋ = c := by
    rw [hdiv, add_comm, Int.floor_add_int, hfr, zero_add]
  unfold qmod
  rw [hfloor]
  ring

/-- Every constant in every geometry-catalog entry is nonnegative. -/
theorem geomCatalog_nonneg : ∀ p ∈ geomCatalog, ∀ x ∈ p.2, (0 : ℚ) ≤ x := by decide

/-- Any value indexed out of `getGeomParams meta` is a nonnegative catalog
constant. -/
theorem getGeomParams_entry_nonneg (meta : Meta) (k : Nat) (x : ℚ)
    (h : (getGeomParams meta)[k]? = some x) : (0 : ℚ) ≤ x := by
  rcases getGeomParams_cases meta with hnil | hmem
  · rw [hnil] at h
    simp at h
  · exact geomCatalog_nonneg _ hmem x (List.getElem?_mem h)

/-- Claim C6: for every channel produced by the computed path for a probe
model whose two row offsets are both strictly less than its horizontal
pitch (nonzero), `x mod horizontalPitch` equals `evenRowXOffset` on even
rows and `oddRowXOffset` on odd rows. -/
theorem shankMapToGeom_parity_offset (meta : Meta) (ap lf sy : Int) (sm : String)
    (entries : List ShankEntry) (n0 w0 p0 e0 o0 hp vp : ℚ) (out : GeomOut)
    (hCC : ChannelCountsIM meta = some (ap, lf, sy))
    (hap : ¬ ap < 0)
    (hsm : lookupList meta "snsShankMap" = some sm)
    (hE : parseShankEntries (pySplit ')' sm) ap.toNat = some entries)
    (h0 : (getGeomParams meta)[0]? = some n0)
    (h1 : (getGeomParams meta)[1]? = some w0)
    (h2 : (getGeomParams meta)[2]? = some p0)
    (h3 : (getGeomParams meta)[3]? = some e0)
    (h4 : (getGeomParams meta)[4]? = some o0)
    (h5 : (getGeomParams meta)[5]? = some hp)
    (h6 : (getGeomParams meta)[6]? = some vp)
    (hout : shankMapToGeom meta = some out)
    (he : e0 < hp) (ho : o0 < hp) (_hne : hp ≠ 0) :
    ∀ i (h : i < entries.length) (x : ℚ), out.xCoord[i]? = some x →
      qmod x hp = if (entries.get ⟨i, h⟩).row % 2 = 0 then e0 else o0 := by
  have heq := shankMapToGeom_eq meta ap lf sy sm entries n0 w0 p0 e0 o0 hp vp
    hCC hap hsm hE h0 h1 h2 h3 h4 h5 h6
  rw [hout] at heq
  have hrec := Option.some.inj heq
  subst hrec
  intro i h x hx
  rw [List.getElem?_map, List.getElem?_eq_getElem h, Option.map_some'] at hx
  have hx2 := Option.some.inj hx
  subst hx2
  simp only [List.get_eq_getElem]
  by_cases hpar : (entries[i].row : Int) % 2 = 0
  · rw [if_pos hpar]
    exact qmod_int_mul_add _ _ _ (getGeomParams_entry_nonneg meta 3 e0 h3) he
  · rw [if_neg hpar]
    exact qmod_int_mul_add _ _ _ (getGeomParams_entry_nonneg meta 4 o0 h4) ho

/-- Claim C6 (witness): the parity law applied at channel 1 (odd row) of
the concrete fixture: `qmod 43 32 = 11`. -/
theorem shankMapToGeom_parity_offset_witness :
    qmod 43 32 = if (entriesShank.get ⟨1, by decide⟩).row % 2 = 0 then (27 : ℚ) else 11 :=
  shankMapToGeom_parity_offset metaShank 2 0 1 "(1,2,480,0)(0:0:0:1)(0:1:1:0)"
    entriesShank 1 70 0 27 11 32 20 outShank (by decide) (by decide) (by decide)
    (by decide) (by decide) (by decide) (by decide) (by decide) (by decide)
    (by decide) (by decide) (by decide) (by decide) (by decide) (by decide)
    1 (by decide) 43 (by decide)

/-- NumPy index semantics for a length-`n` float array: a nonnegative index
must be below `n`; a negative index `b` with `-n ≤ b` addresses position
`n + b`; anything else raises `IndexError`. -/
def npIndex (n : Nat) (b : Int) : Option Nat :=
  if 0 ≤ b then (if b < (n : Int) then some b.toNat else none)
  else (if -(n : Int) ≤ b then some (b + (n : Int)).toNat else none)

/-- NumPy fancy assignment `conn[idxs] = 0`: resolve each index against the
array length and write `0` there; any unresolvable index fails the whole
statement. -/
def npSetZeros (conn : List ℚ) : List Int → Option (List ℚ)
  | [] => some conn
  | b :: rest =>
    match npIndex conn.length b with
    | none => none
    | some j => npSetZeros (conn.set j 0) rest

/-- The bad-channel masking of `MetaToCoords` (source lines 642-643):
`badChan = badChan[badChan < AP]` followed by `connected[badChan] = 0`. -/
def applyBadChan (conn : List ℚ) (badChan : List Int) (ap : Int) : Option (List ℚ) :=
  npSetZeros conn (badChan.filter (fun b => decide (b < ap)))

/-- A successfully resolved NumPy index is within the array. -/
theorem npIndex_lt (n : Nat) (b : Int) (j : Nat) (h : npIndex n b = some j) : j < n := by
  unfold npIndex at h
  split at h
  · split at h
    · have := Option.some.inj h
      omega
    · exact absurd h (by simp)
  · split at h
    · have := Option.some.inj h
      omega
    · exact absurd h (by simp)

/-- `npSetZeros` preserves the array length. -/
theorem npSetZeros_length (l : List Int) : ∀ (conn out : List ℚ),
    npSetZeros conn l = some out → out.length = conn.length := by
  induction l with
  | nil =>
    intro conn out h
    rw [Option.some.inj h.symm]
  | cons b rest ih =>
    intro conn out h
    unfold npSetZeros at h
    cases hj : npIndex conn.length b with
    | none => rw [hj] at h; exact absurd h (by simp)
    | some j =>
      rw [hj] at h
      have := ih (conn.set j 0) out h
      rw [this, List.length_set]

/-- Positions addressed by none of the written indices keep their value. -/
theorem npSetZeros_unchanged (l : List Int) : ∀ (conn out : List ℚ) (j : Nat),
    npSetZeros conn l = some out → (∀ b ∈ l, npIndex conn.length b ≠ some j) →
    out[j]? = conn[j]? := by
  induction l with
  | nil =>
    intro conn out j h _
    rw [Option.some.inj h.symm]
  | cons b rest ih =>
    intro conn out j h hnone
    unfold npSetZeros at h
    cases hk : npIndex conn.length b with
    | none => rw [hk] at h; exact absurd h (by simp)
    | some k =>
      rw [hk] at h
      have hkj : k ≠ j := by
        intro hkj
        exact hnone b (List.mem_cons_self b rest) (by rw [hk, hkj])
      have hrest : ∀ x ∈ rest, npIndex (conn.set k 0).length x ≠ some j := by
        intro x hx
        rw [List.length_set]
        exact hnone x (List.mem_cons_of_mem b hx)
      rw [ih (conn.set k 0) out j h hrest]
      exact List.getElem?_set_ne hkj

/-- A position already holding `0` still holds `0` after `npSetZeros`
(every write writes `0`). -/
theorem npSetZeros_zero_stable (l : List Int) : ∀ (conn out : List ℚ) (j : Nat),
    npSetZeros conn l = some out → conn[j]? = some 0 → out[j]? = some 0 := by
  induction l with
  | nil =>
    intro conn out j h hz
    rw [Option.some.inj h.symm]
    exact hz
  | cons b rest ih =>
    intro conn out j h hz
    unfold npSetZeros at h
    cases hk : npIndex conn.length b with
    | none => rw [hk] at h; exact absurd h (by simp)
    | some k =>
      rw [hk] at h
      refine ih (conn.set k 0) out j h ?_
      by_cases hkj : k = j
      · subst hkj
        have hjlt : k < conn.length := by
          by_contra hge
          rw [List.getElem?_eq_none (by omega)] at hz
          exact Option.noConfusion hz
        exact List.getElem?_set_self hjlt
      · rw [List.getElem?_set_ne hkj]
        exact hz

/-- Every position addressed by some written index ends up holding `0`. -/
theorem npSetZeros_clears (l : List Int) : ∀ (conn out : List ℚ) (b : Int) (j : Nat),
    npSetZeros conn l = some out → b ∈ l → npIndex conn.length b = some j →
    out[j]? = some 0 := by
  induction l with
  | nil =>
    intro conn out b j _ hmem _
    exact absurd hmem (List.not_mem_nil b)
  | cons hd rest ih =>
    intro conn out b j h hmem hidx
    unfold npSetZeros at h
    cases hk : npIndex conn.length hd with
    | none => rw [hk] at h; exact absurd h (by simp)
    | some k =>
      rw [hk] at h
      rcases List.mem_cons.mp hmem with hb | hb
      · subst hb
        have hkj : k = j := Option.some.inj (hk.symm.trans hidx)
        subst hkj
        have hklt : k < conn.length := npIndex_lt conn.length b k hk
        exact npSetZeros_zero_stable rest (conn.set k 0) out k h
          (List.getElem?_set_self hklt)
      · refine ih (conn.set k 0) out b j h hb ?_
        rw [List.length_set]
        exact hidx

/-- Claim C5: indices at or beyond the AP channel count are discarded by
the bad-channel filter before the mask is applied — no such index survives
the filter — and the connectivity flag of every position not addressed by a
retained (filtered) index is unchanged. -/
theorem applyBadChan_out_of_range_discarded (conn : List ℚ) (badChan : List Int)
    (out : List ℚ)
    (happ : applyBadChan conn badChan (conn.length : Int) = some out) :
    (∀ b ∈ badChan, (conn.length : Int) ≤ b →
      b ∉ badChan.filter (fun x => decide (x < (conn.length : Int)))) ∧
    (∀ j : Nat,
      (∀ b ∈ badChan, b < (conn.length : Int) → npIndex conn.length b ≠ some j) →
      out[j]? = conn[j]?) := by
  constructor
  · intro b _ hge hmemf
    have := (List.mem_filter.mp hmemf).2
    simp only [decide_eq_true_eq] at this
    omega
  · intro j hj
    refine npSetZeros_unchanged _ conn out j happ ?_
    intro b hbf
    have hsplit := List.mem_filter.mp hbf
    have hlt : b < (conn.length : Int) := by
      have := hsplit.2
      simpa using this
    exact hj b hsplit.1 hlt

/-- Claim C5 (witness): with three connected channels and bad list `[5, 1]`,
the out-of-range index 5 is discarded and channel 0 (named by no retained
index) is unchanged. -/
theorem applyBadChan_out_of_range_discarded_witness :
    ((5 : Int) ∉ [(5 : Int), 1].filter
      (fun x => decide (x < (List.length [(1 : ℚ), 1, 1] : Int)))) ∧
    [(1 : ℚ), 0, 1][0]? = [(1 : ℚ), 1, 1][0]? :=
  ⟨((applyBadChan_out_of_range_discarded [1, 1, 1] [5, 1] [1, 0, 1] (by decide)).1
      5 (by decide) (by decide)),
   ((applyBadChan_out_of_range_discarded [1, 1, 1] [5, 1] [1, 0, 1] (by decide)).2
      0 (by decide))⟩

/-- Claim C10: a negative bad-channel index `b` with `-AP ≤ b < 0` passes
the `index < AP` filter, and the connectivity flag at position `AP + b`
(counted from the end, NumPy negative-index semantics) is cleared: negative
indices are neither rejected nor clamped. -/
theorem applyBadChan_negative_index_clears (conn : List ℚ) (badChan : List Int)
    (out : List ℚ) (b : Int)
    (happ : applyBadChan conn badChan (conn.length : Int) = some out)
    (hmem : b ∈ badChan) (hlo : -(conn.length : Int) ≤ b) (hhi : b < 0) :
    b ∈ badChan.filter (fun x => decide (x < (conn.length : Int))) ∧
    out[(b + (conn.length : Int)).toNat]? = some 0 := by
  have hltap : b < (conn.length : Int) := by omega
  have hmemf : b ∈ badChan.filter (fun x => decide (x < (conn.length : Int))) :=
    List.mem_filter.mpr ⟨hmem, by simpa using hltap⟩
  refine ⟨hmemf, ?_⟩
  have hidx : npIndex conn.length b = some (b + (conn.length : Int)).toNat := by
    unfold npIndex
    rw [if_neg (by omega), if_pos hlo]
  exact npSetZeros_clears _ conn out b _ happ hmemf hidx

/-- Claim C10 (witness): bad channel `-1` on three channels clears the
last flag. -/
theorem applyBadChan_negative_index_clears_witness :
    ((-1 : Int) ∈ [(-1 : Int)].filter
      (fun x => decide (x < (List.length [(1 : ℚ), 1, 1] : Int)))) ∧
    [(1 : ℚ), 1, 0][((-1 : Int) + (List.length [(1 : ℚ), 1, 1] : Int)).toNat]? = some 0 :=
  applyBadChan_negative_index_clears [1, 1, 1] [-1] [1, 1, 0] (-1)
    (by decide) (by decide) (by decide) (by decide)

/-- Successful `mapOptM` runs have the input's length and are pointwise
images under the effectful function. -/
theorem mapOptM_spec {α β : Type} (f : α → Option β) : ∀ (l : List α) (out : List β),
    mapOptM l f = some out →
    out.length = l.length ∧
    ∀ i (h1 : i < l.length) (h2 : i < out.length),
      f (l.get ⟨i, h1⟩) = some (out.get ⟨i, h2⟩) := by
  intro l
  induction l with
  | nil =>
    intro out h
    have hout : ([] : List β) = out := Option.some.inj h
    subst hout
    exact ⟨rfl, by intro i h1 _; exact absurd h1 (by simp)⟩
  | cons a rest ih =>
    intro out h
    unfold mapOptM at h
    cases hfa : f a with
    | none => rw [hfa] at h; exact absurd h (by simp)
    | some b =>
      rw [hfa] at h
      cases hrest : mapOptM rest f with
      | none => rw [hrest] at h; exact absurd h (by simp)
      | some bs =>
        rw [hrest] at h
        have hout : b :: bs = out := Option.some.inj h
        subst hout
        obtain ⟨hlen, hidx⟩ := ih bs hrest
        refine ⟨by simp [hlen], ?_⟩
        intro i h1 h2
        cases i with
        | zero => simpa using hfa
        | succ n => exact hidx n (by simpa using h1) (by simpa using h2)

/-- One line of the output of encoder 0 (`CoordsToText`, source line 484):
the saved-channel index, the absolute x (`shankInd*shankSep + x`), the y,
and the shank index.  The `'{:d}\t{:g}...'` text formatting itself is
presentation-only and is not modelled. -/
structure TextRow where
  index : Nat
  x : ℚ
  y : ℚ
  shank : ℚ
deriving DecidableEq

/-- `CoordsToText` (source lines 471-485): one row per channel index in
`range(chans.size)`; indexing past an array end raises `IndexError`. -/
def CoordsToText (chans : Nat) (xCoord yCoord _connected shankInd : List ℚ)
    (shankSep : ℚ) : Option (List TextRow) :=
  mapOptM (List.range chans) (fun i => do
    let sh ← shankInd[i]?
    let x ← xCoord[i]?
    let y ← yCoord[i]?
    pure { index := i, x := sh * shankSep + x, y := y, shank := sh })

/-- The seven fields of the Kilosort channel-map artifact
(source lines 571-579). -/
structure KSChanMap where
  chanMap : List ℚ
  chanMap0ind : List ℚ
  connected : List Bool
  name : String
  xcoords : List ℚ
  ycoords : List ℚ
  kcoords : List ℚ
deriving DecidableEq

/-- `CoordsToKSChanMap` (source lines 543-580): `chanMap0ind =
arange(nChan)` as float, `chanMap = chanMap0ind + 1`, `connected` compared
with 1 elementwise, absolute x `shankInd*shankSep + xCoord`, `kcoords =
shankInd + 1`.  The `reshape((nChan,1))` calls and the NumPy broadcasts
require every array to have exactly `nChan` elements, else NumPy raises —
modelled by the length guard. -/
def CoordsToKSChanMap (chans : Nat) (xCoord yCoord connected shankInd : List ℚ)
    (shankSep : ℚ) (baseName : String) : Option KSChanMap :=
  if xCoord.length = chans ∧ yCoord.length = chans ∧ connected.length = chans ∧
      shankInd.length = chans then
    some { chanMap := (List.range chans).map (fun (i : Nat) => (i : ℚ) + 1),
           chanMap0ind := (List.range chans).map (fun (i : Nat) => (i : ℚ)),
           connected := connected.map (fun c => c == 1),
           name := baseName,
           xcoords := (shankInd.zip xCoord).map (fun p => p.1 * shankSep + p.2),
           ycoords := yCoord,
           kcoords := shankInd.map (fun s => s + 1) }
  else none

/-- A produced text row carries exactly the loop index it was built from. -/
theorem textRow_index (i : Nat) (xCoord yCoord shankInd : List ℚ) (shankSep : ℚ)
    (r : TextRow)
    (h : (do
      let sh ← shankInd[i]?
      let x ← xCoord[i]?
      let y ← yCoord[i]?
      pure { index := i, x := sh * shankSep + x, y := y, shank := sh } :
        Option TextRow) = some r) :
    r.index = i := by
  simp only [Option.bind_eq_bind, Option.bind_eq_some, Option.pure_def,
    Option.some.injEq] at h
  obtain ⟨sh, _, x, _, y, _, hr⟩ := h
  subst hr
  rfl

/-- Claim C8: for the same resolved geometry input, the 1-based channel map
written by encoder 1 (`CoordsToKSChanMap`) equals, entry by entry, the
0-based channel index written by encoder 0 (`CoordsToText`) plus one. -/
theorem ksChanMap_eq_text_index_succ
    (chans : Nat) (xCoord yCoord connected shankInd : List ℚ) (shankSep : ℚ)
    (baseName : String) (rows : List TextRow) (ks : KSChanMap)
    (hT : CoordsToText chans xCoord yCoord connected shankInd shankSep = some rows)
    (hK : CoordsToKSChanMap chans xCoord yCoord connected shankInd shankSep baseName =
      some ks) :
    ∀ i (h : i < rows.length),
      ks.chanMap[i]? = some (((rows.get ⟨i, h⟩).index : ℚ) + 1) := by
  obtain ⟨hlen, hidx⟩ := mapOptM_spec _ _ _ hT
  intro i h
  have hi : i < chans := by
    have := hlen ▸ h
    simpa using this
  have hf := hidx i (by simpa using hi) h
  rw [List.get_eq_getElem, List.getElem_range] at hf
  have hridx : (rows.get ⟨i, h⟩).index = i :=
    textRow_index i xCoord yCoord shankInd shankSep _ hf
  unfold CoordsToKSChanMap at hK
  split at hK
  · have hks := Option.some.inj hK
    subst hks
    rw [hridx]
    simp only [List.getElem?_map]
    rw [List.getElem?_eq_getElem (by simpa using hi), Option.map_some', List.getElem_range]
  · exact absurd hK (by simp)

/-- Claim C8 (witness): two channels, flat geometry — row indices 0 and 1
against channel-map entries 1 and 2, checked at channel 0. -/
theorem ksChanMap_eq_text_index_succ_witness :
    (KSChanMap.mk [1, 2] [0, 1] [true, true] "b" [0, 1] [0, 0] [1, 1]).chanMap[0]? =
      some (((TextRow.mk 0 0 0 0) : TextRow).index + 1 : ℚ) := by
  have happ := ksChanMap_eq_text_index_succ 2 [0, 1] [0, 0] [1, 1] [0, 0] 0 "b"
    [TextRow.mk 0 0 0 0, TextRow.mk 1 1 0 0]
    (KSChanMap.mk [1, 2] [0, 1] [true, true] "b" [0, 1] [0, 0] [1, 1])
    (by decide) (by decide) 0 (by decide)
  simp only [List.get_eq_getElem] at happ
  exact happ

/-- Mux-table blob `np1` of `getMuxTable` (source lines 173-176). -/
def np1MuxTbl : String :=
  "~muxTbl=(32,12)(0 1 24 25 48 49 72 73 96 97 120 121 144 145 168 169 192 193 216 217 240 241 264 265 288 289 312 313 336 337 360 361)(2 3 26 27 50 51 74 75 98 99 122 123 146 147 170 171 194 195 218 219 242 243 266 267 290 291 314 315 338 339 362 363)(4 5 28 29 52 53 76 77 100 101 124 125 148 149 172 173 196 197 220 221 244 245 268 269 292 293 316 317 340 341 364 365)(6 7 30 31 54 55 78 79 102 103 126 127 150 151 174 175 198 199 222 223 246 247 270 271 294 295 318 319 342 343 366 367)(8 9 32 33 56 57 80 81 104 105 128 129 152 153 176 177 200 201 224 225 248 249 272 273 296 297 320 321 344 345 368 369)(10 11 34 35 58 59 82 83 106 107 130 131 154 155 178 179 202 203 226 227 250 251 274 275 298 299 322 323 346 347 370 371)(12 13 36 37 60 61 84 85 108 109 132 133 156 157 180 181 204 205 228 229 252 253 276 277 300 301 324 325 348 349 372 373)(14 15 38 39 62 63 86 87 110 111 134 135 158 159 182 183 206 207 230 231 254 255 278 279 302 303 326 327 350 351 374 375)(16 17 40 41 64 65 88 89 112 113 136 137 160 161 184 185 208 209 232 233 256 257 280 281 304 305 328 329 352 353 376 377)(18 19 42 43 66 67 90 91 114 115 138 139 162 163 186 187 210 211 234 235 258 259 282 283 306 307 330 331 354 355 378 379)(20 21 44 45 68 69 92 93 116 117 140 141 164 165 188 189 212 213 236 237 260 261 284 285 308 309 332 333 356 357 380 381)(22 23 46 47 70 71 94 95 118 119 142 143 166 167 190 191 214 215 238 239 262 263 286 287 310 311 334 335 358 359 382 383)"

/-- Mux-table blob `np2` of `getMuxTable` (source lines 173-176). -/
def np2MuxTbl : String :=
  "~muxTbl=(24,16)(0 1 32 33 64 65 96 97 128 129 160 161 192 193 224 225 256 257 288 289 320 321 352 353)(2 3 34 35 66 67 98 99 130 131 162 163 194 195 226 227 258 259 290 291 322 323 354 355)(4 5 36 37 68 69 100 101 132 133 164 165 196 197 228 229 260 261 292 293 324 325 356 357)(6 7 38 39 70 71 102 103 134 135 166 167 198 199 230 231 262 263 294 295 326 327 358 359)(8 9 40 41 72 73 104 105 136 137 168 169 200 201 232 233 264 265 296 297 328 329 360 361)(10 11 42 43 74 75 106 107 138 139 170 171 202 203 234 235 266 267 298 299 330 331 362 363)(12 13 44 45 76 77 108 109 140 141 172 173 204 205 236 237 268 269 300 301 332 333 364 365)(14 15 46 47 78 79 110 111 142 143 174 175 206 207 238 239 270 271 302 303 334 335 366 367)(16 17 48 49 80 81 112 113 144 145 176 177 208 209 240 241 272 273 304 305 336 337 368 369)(18 19 50 51 82 83 114 115 146 147 178 179 210 211 242 243 274 275 306 307 338 339 370 371)(20 21 52 53 84 85 116 117 148 149 180 181 212 213 244 245 276 277 308 309 340 341 372 373)(22 23 54 55 86 87 118 119 150 151 182 183 214 215 246 247 278 279 310 311 342 343 374 375)(24 25 56 57 88 89 120 121 152 153 184 185 216 217 248 249 280 281 312 313 344 345 376 377)(26 27 58 59 90 91 122 123 154 155 186 187 218 219 250 251 282 283 314 315 346 347 378 379)(28 29 60 61 92 93 124 125 156 157 188 189 220 221 252 253 284 285 316 317 348 349 380 381)(30 31 62 63 94 95 126 127 158 159 190 191 222 223 254 255 286 287 318 319 350 351 382 383)"

/-- Mux-table blob `np1100` of `getMuxTable` (source lines 173-176). -/
def np1100MuxTbl : String :=
  "~muxTbl=(32,12)(0 1 24 25 48 49 72 73 96 97 120 121 144 145 168 169 192 193 216 217 240 241 264 265 288 289 312 313 336 337 360 361)(2 3 26 27 50 51 74 75 98 99 122 123 146 147 170 171 194 195 218 219 242 243 266 267 290 291 314 315 338 339 362 363)(4 5 28 29 52 53 76 77 100 101 124 125 148 149 172 173 196 197 220 221 244 245 268 269 292 293 316 317 340 341 364 365)(6 7 30 31 54 55 78 79 102 103 126 127 150 151 174 175 198 199 222 223 246 247 270 271 294 295 318 319 342 343 366 367)(8 9 32 33 56 57 80 81 104 105 128 129 152 153 176 177 200 201 224 225 248 249 272 273 296 297 320 321 344 345 368 369)(10 11 34 35 58 59 82 83 106 107 130 131 154 155 178 179 202 203 226 227 250 251 274 275 298 299 322 323 346 347 370 371)(12 13 36 37 60 61 84 85 108 109 132 133 156 157 180 181 204 205 228 229 252 253 276 277 300 301 324 325 348 349 372 373)(14 15 38 39 62 63 86 87 110 111 134 135 158 159 182 183 206 207 230 231 254 255 278 279 302 303 326 327 350 351 374 375)(16 17 40 41 64 65 88 89 112 113 136 137 160 161 184 185 208 209 232 233 256 257 280 281 304 305 328 329 352 353 376 377)(18 19 42 43 66 67 90 91 114 115 138 139 162 163 186 187 210 211 234 235 258 259 282 283 306 307 330 331 354 355 378 379)(20 21 44 45 68 69 92 93 116 117 140 141 164 165 188 189 212 213 236 237 260 261 284 285 308 309 332 333 356 357 380 381)(22 23 46 47 70 71 94 95 118 119 142 143 166 167 190 191 214 215 238 239 262 263 286 287 310 311 334 335 358 359 382 383)"

/-- Mux-table blob `np128ch` of `getMuxTable` (source lines 173-176). -/
def np128chMuxTbl : String :=
  "~muxTbl=(12,12)(84 11 85 5 74 10 56 112 46 121 39 127)(100 26 110 33 69 24 63 109 45 93 25 99)(87 0 82 6 71 15 53 117 43 122 42 116)(102 28 81 34 70 18 60 103 17 94 27 101)(73 1 86 7 68 16 50 106 40 123 128 128)(105 29 75 35 67 12 54 89 20 95 128 128)(76 2 83 8 65 13 47 118 49 124 128 128)(108 30 78 36 64 14 51 90 23 96 128 128)(79 3 80 9 62 114 44 119 52 125 128 128)(104 31 72 37 61 113 57 91 19 97 128 128)(88 4 77 21 59 111 41 120 55 126 128 128)(107 32 66 38 58 115 48 92 22 98 128 128)"

/-- The probe part-number to mux-table catalog `M` of `getMuxTable`
(source lines 178-223), in source order. -/
def muxCatalog : List (String × String) := [
  ("3A", np1MuxTbl),
  ("PRB_1_4_0480_1", np1MuxTbl),
  ("PRB_1_4_0480_1_C", np1MuxTbl),
  ("NP1010", np1MuxTbl),
  ("NP1011", np1MuxTbl),
  ("NP1012", np1MuxTbl),
  ("NP1013", np1MuxTbl),
  ("NP1015", np1MuxTbl),
  ("NP1015", np1MuxTbl),
  ("NP1016", np1MuxTbl),
  ("NP1017", np1MuxTbl),
  ("NP1020", np1MuxTbl),
  ("NP1021", np1MuxTbl),
  ("NP1030", np1MuxTbl),
  ("NP1031", np1MuxTbl),
  ("NP1022", np1MuxTbl),
  ("NP1032", np1MuxTbl),
  ("NP1100", np1MuxTbl),
  ("NP1110", np1100MuxTbl),
  ("PRB2_1_4_0480_1", np2MuxTbl),
  ("PRB2_1_2_0640_0", np2MuxTbl),
  ("NP2000", np2MuxTbl),
  ("NP2003", np2MuxTbl),
  ("NP2004", np2MuxTbl),
  ("PRB2_4_2_0640_0", np2MuxTbl),
  ("PRB2_4_4_0480_1", np2MuxTbl),
  ("NP2010", np2MuxTbl),
  ("NP2013", np2MuxTbl),
  ("NP2014", np2MuxTbl),
  ("NP1120", np1MuxTbl),
  ("NP1121", np1MuxTbl),
  ("NP1122", np1MuxTbl),
  ("NP1123", np1MuxTbl),
  ("NP1300", np1MuxTbl),
  ("NP1200", np128chMuxTbl),
  ("NXT3000", np128chMuxTbl)]

/-- `getMuxTable` (source lines 168-238): look the part number up in the
mux catalog and append a newline.  For an unknown part number the source
prints a message and returns the empty-list sentinel, which later raises
`TypeError` when written — modelled as `none`. -/
def getMuxTable (meta : Meta) : Option String :=
  match lookupList muxCatalog (probePartNumber meta) with
  | some s => some (s ++ "\n")
  | none => none

/-- `geomMapToGeom` (source lines 314-344): split `snsGeomMap` on `')'`,
parse each non-header group as `(shankInd:x:y:connected)` (`int`, `float`,
`float`, `int`), then read `nShank`, `shankPitch`, `shankWidth` from
comma-separated header fields 1-3. -/
def geomMapToGeom (meta : Meta) : Option GeomOut := do
  let s ← lookupList meta "snsGeomMap"
  let geomMap := pySplit ')' s
  let nEntry := geomMap.length - 2
  let entries ← mapOptM (List.range nEntry) (fun i => do
    let e ← geomMap[i + 1]?
    match pySplit ':' (pyDrop1 e) with
    | a :: b :: c :: d :: _ => do
      let sh ← pyInt a
      let x ← pyFloat b
      let y ← pyFloat c
      let cn ← pyInt d
      pure ((sh : ℚ), x, y, (cn : ℚ))
    | _ => none)
  let hdr0 ← geomMap[0]?
  match pySplit ',' hdr0 with
  | _ :: n :: p :: w :: _ => do
    let nShank ← pyInt n
    let shankPitch ← pyFloat p
    let shankWidth ← pyFloat w
    pure { nShank := (nShank : ℚ), shankWidth := shankWidth, shankPitch := shankPitch,
           shankInd := entries.map (fun e => e.1),
           xCoord := entries.map (fun e => e.2.1),
           yCoord := entries.map (fun e => e.2.2.1),
           connected := entries.map (fun e => e.2.2.2) }
  | _ => none

/-- The data content of the `~snsGeomMap` line built by `snsGeom`
(source lines 350-371): part number, `nShank`, `shankPitch`, `shankWidth`
from the geometry catalog (`geomList[0]`, `[2]`, `[1]`), then one
`(shank:x:y:use)` group per channel.  The `'{:g}'` text formatting is
presentation-only and is not modelled. -/
structure SnsGeomData where
  pn : String
  nShank : ℚ
  shankPitch : ℚ
  shankWidth : ℚ
  entries : List (ℚ × ℚ × ℚ × ℚ)
deriving DecidableEq

/-- `snsGeom` (source lines 350-371); indexing an empty `geomList`
(unsupported probe) or arrays of mismatched length raises. -/
def snsGeom (meta : Meta) (shankInd xCoord yCoord use : List ℚ) :
    Option SnsGeomData := do
  let geomList := getGeomParams meta
  let n0 ← geomList[0]?
  let p0 ← geomList[2]?
  let w0 ← geomList[1]?
  let entries ← mapOptM (List.range shankInd.length) (fun i => do
    let sh ← shankInd[i]?
    let x ← xCoord[i]?
    let y ← yCoord[i]?
    let u ← use[i]?
    pure (sh, x, y, u))
  pure { pn := probePartNumber meta, nShank := n0, shankPitch := p0, shankWidth := w0,
         entries := entries }

/-- The data content of the JRClust strings artifact (source lines
505-540): 1-based shank list, absolute `(x, y)` pairs, and the 1-based
sequential site map. -/
structure JRCData where
  shankMap : List ℚ
  siteLoc : List (ℚ × ℚ)
  siteMap : List Nat
deriving DecidableEq

/-- `CoordsToJRCString` (source lines 505-540): `siteMap = arange + 1`,
`shankInd = shankInd + 1`, then absolute x `shankInd*shankSep + xCoord`
(computed after the shank increment, so with the 1-based shank).  The
per-entry loop plus final-entry write of the source is collapsed into one
map over `range(chans)`, equivalent whenever `0 < chans` and the arrays
have at least `chans` entries (the only case reachable with consistent
metadata); the NumPy broadcast needs `shankInd` and `xCoord` of equal
length. -/
def CoordsToJRCString (chans : Nat) (xCoord yCoord _connected shankInd : List ℚ)
    (shankSep : ℚ) : Option JRCData :=
  if shankInd.length = xCoord.length then do
    let rows ← mapOptM (List.range chans) (fun i => do
      let sh ← shankInd[i]?
      let x ← xCoord[i]?
      let y ← yCoord[i]?
      pure (sh + 1, ((sh + 1) * shankSep + x, y), i + 1))
    pure { shankMap := rows.map (fun r => r.1),
           siteLoc := rows.map (fun r => r.2.1),
           siteMap := rows.map (fun r => r.2.2) }
  else none

/-- `CoordsToNPY` (source lines 488-502): an `(nchan, 2)` matrix with
column 0 the absolute x `xCoord + shankInd*shankSep` and column 1 the y;
`nchan = xCoord.shape[0]`, and the broadcasts need `shankInd` and
`yCoord` of that same length. -/
def CoordsToNPY (_chans : Nat) (xCoord yCoord _connected shankInd : List ℚ)
    (shankSep : ℚ) : Option (List (ℚ × ℚ)) :=
  if shankInd.length = xCoord.length ∧ yCoord.length = xCoord.length then
    some (((xCoord.zip shankInd).zip yCoord).map
      (fun p => (p.1.1 + p.1.2 * shankSep, p.2)))
  else none

/-- The lines appended to the copied metadata by `CoordsToGeomMap`
(source lines 602-607): the three imro backfill strings, the mux-table
line, and the `~snsGeomMap` line. -/
structure GeomMetaAppend where
  apGain : String
  lfGain : String
  fullBand : String
  muxTable : String
  geomMapLine : SnsGeomData
deriving DecidableEq

/-- `CoordsToGeomMap` (source lines 583-607): with no `buildPath` the
source prints a message and returns without writing; with the original
metadata already containing `imChan0apGain` only the copy is made and
nothing is appended (`some none`); otherwise the backfill fields are
computed and appended. -/
def CoordsToGeomMap (meta : Meta) (xCoord yCoord connected shankInd : List ℚ)
    (buildPath : Bool) : Option (Option GeomMetaAppend) :=
  if buildPath = false then some none
  else if metaHasKey meta "imChan0apGain" then some none
  else do
    let (a, l, f) ← imroMetaItems meta
    let mux ← getMuxTable meta
    let sg ← snsGeom meta shankInd xCoord yCoord connected
    pure (some { apGain := a, lfGain := l, fullBand := f, muxTable := mux,
                 geomMapLine := sg })

/-- The one artifact written by an encoder run. -/
inductive Artifact
  | text (rows : List TextRow)
  | ks (m : KSChanMap)
  | jrc (d : JRCData)
  | geomMeta (d : Option GeomMetaAppend)
  | npy (rows : List (ℚ × ℚ))
deriving DecidableEq

/-- The `outputSwitch` dispatch of `MetaToCoords` (source lines 655-664):
`outputSwitch.get(outType)` yields `None` for any code not in `0..4`, and
calling `None` raises `TypeError` (`none` here).  The source default
`destFullPath = \'\'` makes `buildPath` true for encoder 3; destination
path construction is file-system glue and is not modelled. -/
def dispatchEncoder (outType : Int) (meta : Meta) (chans : Nat)
    (xCoord yCoord connected shankInd : List ℚ) (shankPitch : ℚ)
    (baseName : String) : Option Artifact :=
  if outType = 0 then
    (CoordsToText chans xCoord yCoord connected shankInd shankPitch).map Artifact.text
  else if outType = 1 then
    (CoordsToKSChanMap chans xCoord yCoord connected shankInd shankPitch
      baseName).map Artifact.ks
  else if outType = 2 then
    (CoordsToJRCString chans xCoord yCoord connected shankInd shankPitch).map Artifact.jrc
  else if outType = 3 then
    (CoordsToGeomMap meta xCoord yCoord connected shankInd true).map Artifact.geomMeta
  else if outType = 4 then
    (CoordsToNPY chans xCoord yCoord connected shankInd shankPitch).map Artifact.npy
  else none

/-- The in-memory value returned by `MetaToCoords` (source line 666):
coordinates, shank indices, masked connectivity flags, and the raw
`nSavedChans` string. -/
structure CoordResult where
  xCoord : List ℚ
  yCoord : List ℚ
  shankInd : List ℚ
  connected : List ℚ
  nChanTOT : String
deriving DecidableEq

/-- The resolution prefix of `MetaToCoords` (source lines 623-646), shared
by every `outType`: read the metadata, resolve the geometry (explicit
`snsGeomMap` path preferred when the key is present), read the channel
counts, apply the bad-channel mask, and read `nSavedChans`. -/
def resolveChannelGeom (file : Option (List String)) (badChan : List Int) :
    Option (Meta × GeomOut × Int × List ℚ × String) := do
  let meta ← (readMeta file).toOption
  let geom ← if metaHasKey meta "snsGeomMap" then geomMapToGeom meta
             else shankMapToGeom meta
  let (ap, _lf, _sy) ← ChannelCountsIM meta
  let connected2 ← applyBadChan geom.connected badChan ap
  let nChanTOT ← lookupList meta "nSavedChans"
  pure (meta, geom, ap, connected2, nChanTOT)

/-- `MetaToCoords` (source lines 620-666): resolve, then dispatch to the
selected encoder only when `outType >= 0` (`chans = np.arange(AP)`, whose
size is `AP.toNat`), and return the in-memory geometry either way. -/
def MetaToCoords (file : Option (List String)) (outType : Int) (badChan : List Int)
    (baseName : String) : Option (CoordResult × Option Artifact) := do
  let (meta, geom, ap, connected2, nChanTOT) ← resolveChannelGeom file badChan
  let res := CoordResult.mk geom.xCoord geom.yCoord geom.shankInd connected2 nChanTOT
  if 0 ≤ outType then do
    let art ← dispatchEncoder outType meta ap.toNat geom.xCoord geom.yCoord connected2
      geom.shankInd geom.shankPitch baseName
    pure (res, some art)
  else
    pure (res, none)

/-- The geometry part of the orchestrator result, as a function of the
resolution prefix alone. -/
def geomResultOf (t : Meta × GeomOut × Int × List ℚ × String) : CoordResult :=
  { xCoord := t.2.1.xCoord, yCoord := t.2.1.yCoord, shankInd := t.2.1.shankInd,
    connected := t.2.2.2.1, nChanTOT := t.2.2.2.2 }

/-- A successful `MetaToCoords` run returns exactly the geometry of the
resolution prefix, and a negative `outType` writes nothing. -/
theorem MetaToCoords_some_spec (file : Option (List String)) (outType : Int)
    (badChan : List Int) (baseName : String) (res : CoordResult)
    (art : Option Artifact)
    (h : MetaToCoords file outType badChan baseName = some (res, art)) :
    (∃ t, resolveChannelGeom file badChan = some t ∧ res = geomResultOf t) ∧
    (outType < 0 → art = none) := by
  unfold MetaToCoords at h
  cases hres : resolveChannelGeom file badChan with
  | none => rw [hres] at h; exact absurd h (by simp)
  | some t =>
    rw [hres] at h
    obtain ⟨meta, geom, ap, connected2, nChanTOT⟩ := t
    simp only [Option.bind_eq_bind, Option.some_bind] at h
    by_cases hot : 0 ≤ outType
    · rw [if_pos hot] at h
      cases hd : dispatchEncoder outType meta ap.toNat geom.xCoord geom.yCoord
          connected2 geom.shankInd geom.shankPitch baseName with
      | none => rw [hd] at h; exact absurd h (by simp)
      | some a =>
        rw [hd] at h
        have hpair := Option.some.inj h
        have hrfst := congrArg Prod.fst hpair
        refine ⟨⟨(meta, geom, ap, connected2, nChanTOT), rfl, ?_⟩, fun hneg => absurd hot (by omega)⟩
        exact hrfst.symm
    · rw [if_neg hot] at h
      have hpair := Option.some.inj h
      have hrfst := congrArg Prod.fst hpair
      have hrsnd := congrArg Prod.snd hpair
      exact ⟨⟨(meta, geom, ap, connected2, nChanTOT), rfl, hrfst.symm⟩,
        fun _ => hrsnd.symm⟩

/-- Claim C9: for every valid metadata input, `MetaToCoords` returns the
resolved in-memory geometry (coordinates, shank indices, connectivity,
channel-count string) independently of the selected `outputKind` — whether
or not an artifact was written — and a negative `outputKind` produces no
artifact at all (the encoder dispatch is never reached). -/
theorem MetaToCoords_returns_geom (file : Option (List String)) (badChan : List Int)
    (baseName : String) (outType outT2 : Int) (res res2 : CoordResult)
    (art art2 : Option Artifact)
    (h1 : MetaToCoords file outType badChan baseName = some (res, art))
    (h2 : MetaToCoords file outT2 badChan baseName = some (res2, art2)) :
    res2 = res ∧ (outType < 0 → art = none) := by
  obtain ⟨⟨t1, ht1, hres1⟩, hart1⟩ := MetaToCoords_some_spec file outType badChan
    baseName res art h1
  obtain ⟨⟨t2, ht2, hres2⟩, _⟩ := MetaToCoords_some_spec file outT2 badChan
    baseName res2 art2 h2
  have htt : t1 = t2 := Option.some.inj (ht1.symm.trans ht2)
  subst htt
  exact ⟨hres2.trans hres1.symm, hart1⟩

/-- Concrete metadata file for the orchestrator fixture (one tilde-marked
structured key, two plain keys). -/
def fileW : Option (List String) :=
  some ["snsApLfSy=2,0,1", "~snsShankMap=(1,2,480,0)(0:0:0:1)(0:1:1:0)",
    "nSavedChans=3"]

/-- The resolved geometry of `fileW`. -/
def resW : CoordResult :=
  { xCoord := [27, 43], yCoord := [0, 20], shankInd := [0, 0],
    connected := [1, 0], nChanTOT := "3" }

/-- Claim C9 (witness): the orchestrator applied to the concrete fixture
with `outputKind = -1` (no artifact) and `outputKind = 4` (NPY artifact)
returns the same geometry both times, with no artifact in the first run. -/
theorem MetaToCoords_returns_geom_witness :
    resW = resW ∧ ((-1 : Int) < 0 → (none : Option Artifact) = none) :=
  MetaToCoords_returns_geom fileW [] "base" (-1) 4 resW resW none
    (some (Artifact.npy [(27, 0), (43, 20)])) (by decide) (by decide)

/-- Claim C4 (counterexample): for the nonexistent input path (`none` in
the file-system model), `readMeta` does not fail with `MissingFileError`;
the source prints "no meta file" and returns the empty dictionary. -/
theorem readMeta_missing_file_not_error :
    readMeta none ≠ Except.error PyError.missingFile := by
  intro h
  simp [readMeta] at h

/-- Claim C4 (amended): for every input path that does not exist,
`readMeta` returns the empty metadata mapping (after printing a message)
instead of raising any error. -/
theorem readMeta_missing_file_returns_empty :
    readMeta none = Except.ok [] := rfl

end SGLXCoords
